import Mathlib

/-!
Shallow embedding of `src/dictation/dictation_context.py` from the
`talon-accessibility` repository.

The module wires "context aware dictation" into a dictation formatter: it
reads the text content of the focused UI element and selection via platform
accessibility attributes, windows the text around the cursor, and falls back
to an externally supplied provider whenever the capability gate is off,
accessibility is unavailable, or anything raises.

Modelling conventions:
- Python `None` becomes `Option.none`.
- A Python call that may raise is embedded as `Except PyError α`; the
  `try/except Exception` block in `dictation_peek` becomes a `match` on the
  embedded `Except` computation.
- `talon.types.Span` carries unbounded Python integers, embedded as `Int`.
- Python string slicing `s[i:j]` (which clamps, and never raises, for
  arbitrary integer bounds) is embedded by `pySlice`.
- The external collaborators (the setting, `ui.focused_element` /
  `dictation_current_element`, the per-application correction hook, the
  `actions.next` fallback provider, element attribute reads) are parameters,
  gathered in `Collaborators` and `Element`.
- `print` diagnostics are collected in a log (`List String`).
-/

/-- Python exception value: its class name (`type(e).__name__`) and its
message (`str(e)`). -/
structure PyError where
  kind : String
  msg : String
deriving DecidableEq, Repr

/-- `talon.types.Span`: a half-open range with integer endpoints, accessed
by the source as `.left` and `.right`. -/
structure Span where
  left : Int
  right : Int
deriving DecidableEq, Repr

/-- Python slice `s[i : j]` for arbitrary integer bounds: negative indices
count from the end, all indices clamp to `[0, len(s)]`, and the result is
empty when the resolved start is not before the resolved stop. -/
def pySlice (s : String) (i j : Int) : String :=
  let n : Int := s.length
  let ia : Int := if i < 0 then max 0 (n + i) else min i n
  let jb : Int := if j < 0 then max 0 (n + j) else min j n
  String.mk ((s.data.drop ia.toNat).take (jb.toNat - ia.toNat))

/-- `DEFAULT_CONTEXT_CHARACTERS = 30` (line 27 of the source). -/
def DEFAULT_CONTEXT_CHARACTERS : Int := 30

/-- The `AccessibilityContext` dataclass. Although the Python type hints say
`content: str` and `selection: Span`, the constructor is in fact called with
possibly-`None` attribute reads (line 93), and the post-hook validation
checks both fields for `None` (line 99); so both fields are embedded as
`Option`. -/
structure AccessibilityContext where
  content : Option String
  selection : Option Span
deriving DecidableEq, Repr

/-- `AccessibilityContext.left_context` (lines 37-40):
`start = max(0, self.selection.left - num_chars)` followed by
`self.content[start : self.selection.left]`. Accessing `.left` on a `None`
selection raises `AttributeError`; slicing a `None` content raises
`TypeError`; both are embedded as `Except.error`. -/
def AccessibilityContext.left_context (c : AccessibilityContext)
    (num_chars : Int := DEFAULT_CONTEXT_CHARACTERS) : Except PyError String :=
  match c.selection with
  | none => .error ⟨"AttributeError", "NoneType object has no attribute left"⟩
  | some sel =>
    match c.content with
    | none => .error ⟨"TypeError", "NoneType object is not subscriptable"⟩
    | some content => .ok (pySlice content (max 0 (sel.left - num_chars)) sel.left)

/-- `AccessibilityContext.right_context` (lines 42-45):
`end = min(self.selection.right + num_chars, len(self.content))` followed by
`self.content[self.selection.right : end]`. -/
def AccessibilityContext.right_context (c : AccessibilityContext)
    (num_chars : Int := DEFAULT_CONTEXT_CHARACTERS) : Except PyError String :=
  match c.selection with
  | none => .error ⟨"AttributeError", "NoneType object has no attribute right"⟩
  | some sel =>
    match c.content with
    | none => .error ⟨"TypeError", "object of type NoneType has no len"⟩
    | some content =>
      .ok (pySlice content sel.right (min (sel.right + num_chars) (content.length : Int)))

/-- A focused UI element as this module observes it: the truthiness of
`el.attrs`, and the two attribute reads the module performs. Each read may
return a value, return `None`, or raise. -/
structure Element where
  attrsNonEmpty : Bool
  getSelectedTextRange : Except PyError (Option Span)
  getValue : Except PyError (Option String)

/-- The external collaborators of the module, snapshotted for one call:
the `accessibility_dictation` setting, the (overridable)
`dictation_current_element` resolution, the (overridable)
`accessibility_adjust_context_for_application` hook, and the
`actions.next(left, right)` fallback provider. -/
structure Collaborators where
  accessibility_dictation : Bool
  dictation_current_element : Except PyError (Option Element)
  adjust_for_application : Element → AccessibilityContext → Except PyError AccessibilityContext
  fallback_peek : Bool → Bool → Option String × Option String

/-- `accessibility_create_dictation_context` (lines 75-102): gate check,
`not el or not el.attrs` check, the two raw attribute reads with the
absent-selection default `Span(0, 0)`, the per-application hook, and the
post-hook `None` validation. -/
def accessibility_create_dictation_context (C : Collaborators)
    (el : Option Element) : Except PyError (Option AccessibilityContext) :=
  if !C.accessibility_dictation then .ok none
  else
    match el with
    | none => .ok none
    | some e =>
      if !e.attrsNonEmpty then .ok none
      else do
        let rawSel ← e.getSelectedTextRange
        let selection := match rawSel with
          | none => Span.mk 0 0
          | some s => s
        let value ← e.getValue
        let context : AccessibilityContext := ⟨value, some selection⟩
        let context ← C.adjust_for_application e context
        if context.content.isNone || context.selection.isNone then
          pure none
        else
          pure (some context)

/-- The `Colors` enum values (lines 106-109). -/
def Colors.RESET : String := "\x1b[0m"

/-- `Colors.RED` (line 108). -/
def Colors.RED : String := "\x1b[31m"

/-- `Colors.YELLOW` (line 109). -/
def Colors.YELLOW : String := "\x1b[33m"

/-- The warning printed when no context could be built (lines 126-128). -/
def warnUnavailableMsg : String :=
  Colors.YELLOW ++ "Accessibility not available for context-aware dictation"
    ++ Colors.RESET ++ "; falling back to cursor method"

/-- The diagnostic printed by the `except` clause (lines 136-138), carrying
the failure kind `type(e).__name__` and message `str(e)`. -/
def errorDiagnostic (e : PyError) : String :=
  Colors.RED ++ e.kind
    ++ " while querying accessibility for context-aware dictation:"
    ++ Colors.RESET ++ " \u0027" ++ e.msg ++ "\u0027:"

/-- Result of one `dictation_peek` call: the returned pair and the lines
printed to the console. -/
structure PeekOutcome where
  result : Option String × Option String
  log : List String
deriving DecidableEq, Repr

/-- The body of the `try` block of `dictation_peek` (lines 119-134): gate
check, element resolution, context construction, warning-and-fallback when
no context was built, and the conditional window computations. An
`Except.error` escaping this computation models an exception reaching the
`except` clause. -/
def dictation_peekBody (C : Collaborators) (left right : Bool) :
    Except PyError PeekOutcome :=
  if !C.accessibility_dictation then .ok ⟨C.fallback_peek left right, []⟩
  else do
    let el ← C.dictation_current_element
    let context ← accessibility_create_dictation_context C el
    match context with
    | none => pure ⟨C.fallback_peek left right, [warnUnavailableMsg]⟩
    | some ctxt => do
      let before ← if left then do
          let t ← ctxt.left_context
          pure (some t)
        else pure none
      let after ← if right then do
          let t ← ctxt.right_context
          pure (some t)
        else pure none
      pure ⟨(before, after), []⟩

/-- `dictation_peek` (lines 116-144): run the `try` block; on any exception,
print the diagnostic and return the result of the fallback provider. -/
def dictation_peek (C : Collaborators) (left right : Bool) : PeekOutcome :=
  match dictation_peekBody C left right with
  | .ok out => out
  | .error e => ⟨C.fallback_peek left right, [errorDiagnostic e]⟩

/-- Helper: for in-range nonnegative bounds the Python slice is plain
drop-then-take. -/
theorem pySlice_of_bounds (s : String) (i j : Int) (hi : 0 ≤ i)
    (hin : i ≤ (s.length : Int)) (hj : 0 ≤ j) (hjn : j ≤ (s.length : Int)) :
    pySlice s i j = String.mk ((s.data.drop i.toNat).take (j.toNat - i.toNat)) := by
  unfold pySlice
  simp [not_lt.mpr hi, not_lt.mpr hj, min_eq_left hin, min_eq_left hjn]

/-- C3: for every content string, every selection with
`0 <= left <= right <= len(content)` and every window `n >= 0`,
`left_context(n)` succeeds and returns the slice of `content` ending exactly
at offset `left`, whose length is `min(n, left)`. -/
theorem left_context_spec (content : String) (l r n : Int)
    (h0 : 0 ≤ l) (hlr : l ≤ r) (hrn : r ≤ (content.length : Int)) (hn : 0 ≤ n) :
    (AccessibilityContext.mk (some content) (some ⟨l, r⟩)).left_context n
      = .ok (String.mk ((content.data.take l.toNat).drop (l.toNat - n.toNat)))
    ∧ (String.mk ((content.data.take l.toNat).drop (l.toNat - n.toNat))).length
      = min n.toNat l.toNat := by
  have hl : l ≤ (content.length : Int) := le_trans hlr hrn
  constructor
  · show Except.ok (pySlice content (max 0 (l - n)) l) = _
    rw [pySlice_of_bounds content (max 0 (l - n)) l (le_max_left 0 _)
      (by omega) h0 hl]
    have hI : (max 0 (l - n)).toNat = l.toNat - n.toNat := by omega
    rw [hI, List.drop_take]
  · rw [String.length_mk, List.length_drop, List.length_take]
    have hdl : content.length = content.data.length := rfl
    have : l.toNat ≤ content.data.length := by omega
    omega

/-- Witness for C3 at the spec scenario: content `"hello world"`, selection
`[5, 5)`, window 30 yields `"hello"` of length `min 30 5 = 5`. -/
theorem left_context_spec_witness :
    ((0 : Int) ≤ 5 ∧ (5 : Int) ≤ 5 ∧ (5 : Int) ≤ (("hello world" : String).length : Int)
      ∧ (0 : Int) ≤ 30)
    ∧ (AccessibilityContext.mk (some "hello world") (some ⟨5, 5⟩)).left_context 30
        = .ok (String.mk ((("hello world" : String).data.take (5 : Int).toNat).drop
            ((5 : Int).toNat - (30 : Int).toNat)))
    ∧ (String.mk ((("hello world" : String).data.take (5 : Int).toNat).drop
        ((5 : Int).toNat - (30 : Int).toNat))).length = min (30 : Int).toNat (5 : Int).toNat := by
  refine ⟨⟨by decide, by decide, by decide, by decide⟩, ?_⟩
  exact left_context_spec "hello world" 5 5 30 (by decide) (by decide) (by decide) (by decide)

/-- C4: for every content string, every selection with
`0 <= left <= right <= len(content)` and every window `n >= 0`,
`right_context(n)` succeeds and returns the slice of `content` starting
exactly at offset `right`, whose length is `min(n, len(content) - right)`. -/
theorem right_context_spec (content : String) (l r n : Int)
    (h0 : 0 ≤ l) (hlr : l ≤ r) (hrn : r ≤ (content.length : Int)) (hn : 0 ≤ n) :
    (AccessibilityContext.mk (some content) (some ⟨l, r⟩)).right_context n
      = .ok (String.mk ((content.data.drop r.toNat).take n.toNat))
    ∧ (String.mk ((content.data.drop r.toNat).take n.toNat)).length
      = min n.toNat (content.length - r.toNat) := by
  have hdl : content.length = content.data.length := rfl
  have h0r : 0 ≤ r := le_trans h0 hlr
  constructor
  · show Except.ok (pySlice content r (min (r + n) (content.length : Int))) = _
    rw [pySlice_of_bounds content r _ h0r hrn (by omega) (min_le_right _ _)]
    congr 2
    rw [List.take_eq_take, List.length_drop]
    omega
  · rw [String.length_mk, List.length_take, List.length_drop]
    omega

/-- Witness for C4 at the spec scenario: content `"abc"`, selection `[0, 0)`,
window 30 yields `"abc"` of length `min 30 3 = 3`. -/
theorem right_context_spec_witness :
    ((0 : Int) ≤ 0 ∧ (0 : Int) ≤ 0 ∧ (0 : Int) ≤ (("abc" : String).length : Int)
      ∧ (0 : Int) ≤ 30)
    ∧ (AccessibilityContext.mk (some "abc") (some ⟨0, 0⟩)).right_context 30
        = .ok (String.mk ((("abc" : String).data.drop (0 : Int).toNat).take (30 : Int).toNat))
    ∧ (String.mk ((("abc" : String).data.drop (0 : Int).toNat).take (30 : Int).toNat)).length
        = min (30 : Int).toNat (("abc" : String).length - (0 : Int).toNat) := by
  refine ⟨⟨by decide, by decide, by decide, by decide⟩, ?_⟩
  exact right_context_spec "abc" 0 0 30 (by decide) (by decide) (by decide) (by decide)

/-- C9: for every `AccessibilityContext` whose content is a string and whose
selection offsets are arbitrary integers (even violating the invariant
`0 <= left <= right <= len`), and every `num_chars >= 0`, `left_context`
and `right_context` return a string without raising: Python slicing clamps
out-of-range integer bounds instead of failing. -/
theorem context_windows_never_raise (s : String) (a b n : Int) (hn : 0 ≤ n) :
    (∃ t, (AccessibilityContext.mk (some s) (some ⟨a, b⟩)).left_context n = .ok t)
    ∧ ∃ t, (AccessibilityContext.mk (some s) (some ⟨a, b⟩)).right_context n = .ok t :=
  ⟨⟨_, rfl⟩, ⟨_, rfl⟩⟩

/-- Witness for C9 on an invariant-violating selection `[-7, 100)` over
`"abc"`. -/
theorem context_windows_never_raise_witness :
    (0 : Int) ≤ 2
    ∧ ((∃ t, (AccessibilityContext.mk (some "abc") (some ⟨-7, 100⟩)).left_context 2 = .ok t)
      ∧ ∃ t, (AccessibilityContext.mk (some "abc") (some ⟨-7, 100⟩)).right_context 2 = .ok t) :=
  ⟨by decide, context_windows_never_raise "abc" (-7) 100 2 (by decide)⟩

/-- C2: when the capability gate is off, `dictation_peek` returns exactly the
result of the fallback provider (and prints nothing); moreover the result is the
same for any other collaborator bundle that agrees on the gate and the
fallback, i.e. the element and attribute collaborators are never queried. -/
theorem dictation_peek_gate_off (C Cother : Collaborators) (l r : Bool)
    (h : C.accessibility_dictation = false)
    (hother : Cother.accessibility_dictation = false)
    (hf : Cother.fallback_peek = C.fallback_peek) :
    dictation_peek C l r = ⟨C.fallback_peek l r, []⟩
    ∧ dictation_peek C l r = dictation_peek Cother l r := by
  constructor
  · simp [dictation_peek, dictation_peekBody, h]
  · simp [dictation_peek, dictation_peekBody, h, hother, hf]

/-- Concrete gate-off collaborators for the C2 witness; the element resolver
and the hook both raise, so any query to them would be visible. -/
def gateOffC : Collaborators :=
  ⟨false, .error ⟨"RuntimeError", "element collaborator was queried"⟩,
    fun _ _ => .error ⟨"RuntimeError", "hook was queried"⟩,
    fun l r => (if l then some "fb-left" else none, if r then some "fb-right" else none)⟩

/-- Gate-off collaborators differing from `gateOffC` everywhere except the
gate and the fallback. -/
def gateOffCother : Collaborators :=
  ⟨false, .ok none, fun _ c => .ok c,
    fun l r => (if l then some "fb-left" else none, if r then some "fb-right" else none)⟩

/-- Witness for C2 at `dictation_peek(true, true)` with the gate off. -/
theorem dictation_peek_gate_off_witness :
    (gateOffC.accessibility_dictation = false
      ∧ gateOffCother.accessibility_dictation = false
      ∧ gateOffCother.fallback_peek = gateOffC.fallback_peek)
    ∧ dictation_peek gateOffC true true = ⟨gateOffC.fallback_peek true true, []⟩
    ∧ dictation_peek gateOffC true true = dictation_peek gateOffCother true true := by
  refine ⟨⟨rfl, rfl, rfl⟩, ?_⟩
  exact dictation_peek_gate_off gateOffC gateOffCother true true rfl rfl rfl

/-- C1: with the gate on, if an unexpected exception escapes the element
resolution / context construction / window computation (the `try` body),
`dictation_peek` catches it, prints a diagnostic carrying the failure kind
and message, and returns the result of the fallback provider. -/
theorem dictation_peek_catches_errors (C : Collaborators) (l r : Bool) (e : PyError)
    (hgate : C.accessibility_dictation = true)
    (herr : dictation_peekBody C l r = .error e) :
    dictation_peek C l r = ⟨C.fallback_peek l r, [errorDiagnostic e]⟩
    ∧ ∃ pre mid post, errorDiagnostic e = pre ++ e.kind ++ mid ++ e.msg ++ post := by
  constructor
  · simp [dictation_peek, herr]
  · refine ⟨Colors.RED,
      " while querying accessibility for context-aware dictation:" ++ Colors.RESET
        ++ " \u0027", "\u0027:", ?_⟩
    simp [errorDiagnostic, String.append_assoc]

/-- Collaborators whose element resolution raises `OSError`, for the C1
witness. -/
def raisingC : Collaborators :=
  ⟨true, .error ⟨"OSError", "AX API timed out"⟩, fun _ c => .ok c,
    fun l r => (if l then some "fb-left" else none, if r then some "fb-right" else none)⟩

/-- Witness for C1: the raised `OSError` is caught, logged with its kind and
message, and the fallback result is returned. -/
theorem dictation_peek_catches_errors_witness :
    (raisingC.accessibility_dictation = true
      ∧ dictation_peekBody raisingC true true = .error ⟨"OSError", "AX API timed out"⟩)
    ∧ dictation_peek raisingC true true
        = ⟨raisingC.fallback_peek true true, [errorDiagnostic ⟨"OSError", "AX API timed out"⟩]⟩
    ∧ ∃ pre mid post, errorDiagnostic ⟨"OSError", "AX API timed out"⟩
        = pre ++ "OSError" ++ mid ++ "AX API timed out" ++ post := by
  refine ⟨⟨rfl, rfl⟩, ?_⟩
  exact dictation_peek_catches_errors raisingC true true ⟨"OSError", "AX API timed out"⟩ rfl rfl

/-- Fallback provider used by the concrete witness collaborators. -/
def fbProvider : Bool → Bool → Option String × Option String :=
  fun l r => (if l then some "fb-left" else none, if r then some "fb-right" else none)

/-- C6: with the gate on, if the resolved element is null or reports no
attributes, `accessibility_create_dictation_context` returns `None`, and
`dictation_peek` prints the non-fatal unavailability warning and returns the
result of the fallback provider. -/
theorem build_context_unavailable (C : Collaborators) (el : Option Element) (l r : Bool)
    (hgate : C.accessibility_dictation = true)
    (helem : C.dictation_current_element = .ok el)
    (hel : el = none ∨ ∃ e, el = some e ∧ e.attrsNonEmpty = false) :
    accessibility_create_dictation_context C el = .ok none
    ∧ dictation_peek C l r = ⟨C.fallback_peek l r, [warnUnavailableMsg]⟩ := by
  have hc : accessibility_create_dictation_context C el = .ok none := by
    rcases hel with h | ⟨e, he, ha⟩
    · simp [accessibility_create_dictation_context, hgate, h]
    · simp [accessibility_create_dictation_context, hgate, he, ha]
  refine ⟨hc, ?_⟩
  simp [dictation_peek, dictation_peekBody, hgate, helem, hc,
    Except.instMonad, Except.bind, Bind.bind, Pure.pure, Except.pure]

/-- Gate-on collaborators whose element resolution reports nothing focused,
for the C6 witness. -/
def noElementC : Collaborators := ⟨true, .ok none, fun _ c => .ok c, fbProvider⟩

/-- Witness for C6 with a null resolved element. -/
theorem build_context_unavailable_witness :
    (noElementC.accessibility_dictation = true
      ∧ noElementC.dictation_current_element = .ok (none : Option Element)
      ∧ ((none : Option Element) = none
          ∨ ∃ e, (none : Option Element) = some e ∧ e.attrsNonEmpty = false))
    ∧ accessibility_create_dictation_context noElementC none = .ok none
    ∧ dictation_peek noElementC true true
        = ⟨noElementC.fallback_peek true true, [warnUnavailableMsg]⟩ :=
  ⟨⟨rfl, rfl, Or.inl rfl⟩,
    build_context_unavailable noElementC none true true rfl rfl (Or.inl rfl)⟩

/-- C5: with the gate on and valid raw attribute reads, if the
per-application correction hook returns a context whose content or selection
is null, `accessibility_create_dictation_context` returns `None` and
`dictation_peek` delegates to the fallback provider (printing the
unavailability warning). -/
theorem hook_nulls_force_fallback (C : Collaborators) (e : Element) (s0 : String) (sp0 : Span)
    (cc : AccessibilityContext) (l r : Bool)
    (hgate : C.accessibility_dictation = true)
    (helem : C.dictation_current_element = .ok (some e))
    (hattrs : e.attrsNonEmpty = true)
    (hsel : e.getSelectedTextRange = .ok (some sp0))
    (hval : e.getValue = .ok (some s0))
    (hhook : C.adjust_for_application e ⟨some s0, some sp0⟩ = .ok cc)
    (hnull : cc.content = none ∨ cc.selection = none) :
    accessibility_create_dictation_context C (some e) = .ok none
    ∧ dictation_peek C l r = ⟨C.fallback_peek l r, [warnUnavailableMsg]⟩ := by
  have hc : accessibility_create_dictation_context C (some e) = .ok none := by
    simp [accessibility_create_dictation_context, hgate, hattrs, hsel, hval, hhook,
      Except.instMonad, Except.bind, Bind.bind, Pure.pure, Except.pure]
    rcases hnull with h | h <;> simp [h]
  exact ⟨hc, by simp [dictation_peek, dictation_peekBody, hgate, helem, hc,
    Except.instMonad, Except.bind, Bind.bind, Pure.pure, Except.pure]⟩

/-- An element with valid raw reads, for the C5 witness. -/
def validReadsEl : Element := ⟨true, .ok (some ⟨2, 2⟩), .ok (some "hello")⟩

/-- Collaborators whose hook nulls out the content field, for the C5
witness. -/
def nullingHookC : Collaborators :=
  ⟨true, .ok (some validReadsEl), fun _ c => .ok ⟨none, c.selection⟩, fbProvider⟩

/-- Witness for C5: the hook nulls the content of a validly-read context and
forces the fallback. -/
theorem hook_nulls_force_fallback_witness :
    (nullingHookC.accessibility_dictation = true
      ∧ nullingHookC.dictation_current_element = .ok (some validReadsEl)
      ∧ validReadsEl.attrsNonEmpty = true
      ∧ validReadsEl.getSelectedTextRange = .ok (some ⟨2, 2⟩)
      ∧ validReadsEl.getValue = .ok (some "hello")
      ∧ nullingHookC.adjust_for_application validReadsEl ⟨some "hello", some ⟨2, 2⟩⟩
          = .ok ⟨none, some ⟨2, 2⟩⟩
      ∧ ((AccessibilityContext.mk none (some ⟨2, 2⟩)).content = none
          ∨ (AccessibilityContext.mk none (some ⟨2, 2⟩)).selection = none))
    ∧ accessibility_create_dictation_context nullingHookC (some validReadsEl) = .ok none
    ∧ dictation_peek nullingHookC true true
        = ⟨nullingHookC.fallback_peek true true, [warnUnavailableMsg]⟩ :=
  ⟨⟨rfl, rfl, rfl, rfl, rfl, rfl, Or.inl rfl⟩,
    hook_nulls_force_fallback nullingHookC validReadsEl "hello" ⟨2, 2⟩
      ⟨none, some ⟨2, 2⟩⟩ true true rfl rfl rfl rfl rfl rfl (Or.inl rfl)⟩

/-- C7: with the gate on and the default (identity) hook, if the
selected-range attribute read returns `None` while content is present,
`accessibility_create_dictation_context` succeeds and the constructed
context carries the empty selection `[0, 0)`. -/
theorem absent_selection_treated_as_zero (C : Collaborators) (e : Element) (s0 : String)
    (hgate : C.accessibility_dictation = true)
    (hattrs : e.attrsNonEmpty = true)
    (hsel : e.getSelectedTextRange = .ok none)
    (hval : e.getValue = .ok (some s0))
    (hhook : C.adjust_for_application = fun _ c => .ok c) :
    accessibility_create_dictation_context C (some e)
      = .ok (some ⟨some s0, some (Span.mk 0 0)⟩) := by
  simp [accessibility_create_dictation_context, hgate, hattrs, hsel, hval, hhook,
    Except.instMonad, Except.bind, Bind.bind, Pure.pure, Except.pure]

/-- An element whose selected-range attribute is absent while content is
present (as Microsoft apps report at buffer start), for the C7 witness. -/
def noSelectionEl : Element := ⟨true, .ok none, .ok (some "abc")⟩

/-- Gate-on collaborators with the default identity hook, for the C7
witness. -/
def defaultHookC : Collaborators :=
  ⟨true, .ok (some noSelectionEl), fun _ c => .ok c, fbProvider⟩

/-- Witness for C7: absent selection resolves to `[0, 0)`. -/
theorem absent_selection_treated_as_zero_witness :
    (defaultHookC.accessibility_dictation = true
      ∧ noSelectionEl.attrsNonEmpty = true
      ∧ noSelectionEl.getSelectedTextRange = .ok none
      ∧ noSelectionEl.getValue = .ok (some "abc")
      ∧ defaultHookC.adjust_for_application = fun _ c => .ok c)
    ∧ accessibility_create_dictation_context defaultHookC (some noSelectionEl)
        = .ok (some ⟨some "abc", some (Span.mk 0 0)⟩) :=
  ⟨⟨rfl, rfl, rfl, rfl, rfl⟩,
    absent_selection_treated_as_zero defaultHookC noSelectionEl "abc" rfl rfl rfl rfl rfl⟩

/-- C8: when a context is successfully built, `dictation_peek` computes
`left_context` (with the default 30-character window) only when `want_left`
is true and `right_context` only when `want_right` is true, leaving each
unrequested side null; in particular `want_left = false, want_right = true`
yields `(null, right_text)`. -/
theorem peek_windows_on_demand (C : Collaborators) (el : Option Element)
    (ctx : AccessibilityContext) (s : String) (sp : Span) (l r : Bool)
    (hgate : C.accessibility_dictation = true)
    (helem : C.dictation_current_element = .ok el)
    (hctx : accessibility_create_dictation_context C el = .ok (some ctx))
    (hcontent : ctx.content = some s) (hsel : ctx.selection = some sp) :
    dictation_peek C l r =
      ⟨(if l then some (pySlice s (max 0 (sp.left - DEFAULT_CONTEXT_CHARACTERS)) sp.left)
          else none,
        if r then some (pySlice s sp.right
            (min (sp.right + DEFAULT_CONTEXT_CHARACTERS) (s.length : Int))) else none), []⟩ := by
  cases l <;> cases r <;>
    simp [dictation_peek, dictation_peekBody, hgate, helem, hctx,
      AccessibilityContext.left_context, AccessibilityContext.right_context, hcontent, hsel,
      Except.instMonad, Except.bind, Bind.bind, Pure.pure, Except.pure,
      Functor.map, Except.map]

/-- An element reporting the spec scenario buffer, for the C8 witness. -/
def helloWorldEl : Element := ⟨true, .ok (some ⟨5, 5⟩), .ok (some "hello world")⟩

/-- Gate-on collaborators around `helloWorldEl`, for the C8 witness. -/
def helloWorldC : Collaborators :=
  ⟨true, .ok (some helloWorldEl), fun _ c => .ok c, fbProvider⟩

/-- Witness for C8 at `want_left = false, want_right = true`: the returned
pair is `(null, right_text)`. -/
theorem peek_windows_on_demand_witness :
    (helloWorldC.accessibility_dictation = true
      ∧ helloWorldC.dictation_current_element = .ok (some helloWorldEl)
      ∧ accessibility_create_dictation_context helloWorldC (some helloWorldEl)
          = .ok (some ⟨some "hello world", some ⟨5, 5⟩⟩)
      ∧ (AccessibilityContext.mk (some "hello world") (some ⟨5, 5⟩)).content
          = some "hello world"
      ∧ (AccessibilityContext.mk (some "hello world") (some ⟨5, 5⟩)).selection
          = some ⟨5, 5⟩)
    ∧ dictation_peek helloWorldC false true =
        ⟨(if false then
            some (pySlice "hello world"
              (max 0 ((5 : Int) - DEFAULT_CONTEXT_CHARACTERS)) (5 : Int)) else none,
          if true then
            some (pySlice "hello world" (5 : Int)
              (min ((5 : Int) + DEFAULT_CONTEXT_CHARACTERS) (("hello world" : String).length : Int)))
          else none), []⟩ :=
  ⟨⟨rfl, rfl, rfl, rfl, rfl⟩,
    peek_windows_on_demand helloWorldC (some helloWorldEl)
      ⟨some "hello world", some ⟨5, 5⟩⟩ "hello world" ⟨5, 5⟩ false true rfl rfl rfl rfl rfl⟩

/-- C10: with the gate on and attribute support, the correction hook is
applied to the candidate built from the raw reads even when the raw content
read was null; if the hook output has non-null content and selection,
`accessibility_create_dictation_context` returns the hook output rather than
`None` — the hook can rescue a null raw read. -/
theorem hook_can_rescue_null_content (C : Collaborators) (e : Element) (rsel : Option Span)
    (cc : AccessibilityContext) (s : String) (sp : Span)
    (hgate : C.accessibility_dictation = true)
    (hattrs : e.attrsNonEmpty = true)
    (hselread : e.getSelectedTextRange = .ok rsel)
    (hval : e.getValue = .ok none)
    (hhook : C.adjust_for_application e ⟨none, some (rsel.getD ⟨0, 0⟩)⟩ = .ok cc)
    (hc : cc.content = some s) (hs : cc.selection = some sp) :
    accessibility_create_dictation_context C (some e) = .ok (some cc) := by
  rcases rsel with _ | sp0 <;>
    simp_all [accessibility_create_dictation_context, hgate, hattrs, hval,
      Option.getD, Except.instMonad, Except.bind, Bind.bind, Pure.pure, Except.pure]

/-- An element whose content read returns null, for the C10 witness. -/
def nullValueEl : Element := ⟨true, .ok none, .ok none⟩

/-- Collaborators whose hook substitutes a full context, for the C10
witness. -/
def rescuingHookC : Collaborators :=
  ⟨true, .ok (some nullValueEl), fun _ _ => .ok ⟨some "rescued", some ⟨0, 0⟩⟩, fbProvider⟩

/-- Witness for C10: the hook rescues a null content read. -/
theorem hook_can_rescue_null_content_witness :
    (rescuingHookC.accessibility_dictation = true
      ∧ nullValueEl.attrsNonEmpty = true
      ∧ nullValueEl.getSelectedTextRange = .ok (none : Option Span)
      ∧ nullValueEl.getValue = .ok (none : Option String)
      ∧ rescuingHookC.adjust_for_application nullValueEl
          ⟨none, some ((none : Option Span).getD ⟨0, 0⟩)⟩
          = .ok ⟨some "rescued", some ⟨0, 0⟩⟩
      ∧ (AccessibilityContext.mk (some "rescued") (some ⟨0, 0⟩)).content = some "rescued"
      ∧ (AccessibilityContext.mk (some "rescued") (some ⟨0, 0⟩)).selection = some ⟨0, 0⟩)
    ∧ accessibility_create_dictation_context rescuingHookC (some nullValueEl)
        = .ok (some ⟨some "rescued", some ⟨0, 0⟩⟩) :=
  ⟨⟨rfl, rfl, rfl, rfl, rfl, rfl, rfl⟩,
    hook_can_rescue_null_content rescuingHookC nullValueEl none
      ⟨some "rescued", some ⟨0, 0⟩⟩ "rescued" ⟨0, 0⟩ rfl rfl rfl rfl rfl rfl rfl⟩
